import Mathlib

/-!
Verification development for the learnify-health weather-pipeline backend.

Shallow embedding of the pipeline coordination core:
* `lambda/src/city-processor.ts` — intake handler (`processCityRequest`) and
  status accessor (`getProcessingStatus`);
* `lambda/src/weather-processor.ts` — enrichment handler
  (`processWeatherRecord`, `fetchWeatherData`, `updateProcessingStatus`);
* the LLM processor — description handler (`processLLMRecord`,
  `generateWeatherDescription`).

External collaborators (DynamoDB, SQS, SNS, outbound HTTP) are modelled as an
environment record per invocation: each awaited call either succeeds or
throws, as chosen by the environment.  The DynamoDB table is modelled as an
association list keyed by the composite key (partition key `cityId`, sort key
`timestamp`), matching the table declaration in the CDK stack
(partitionKey cityId, sortKey timestamp).  Numeric weather payload values are
modelled as integers; no claim depends on their arithmetic.
-/

namespace LearnifyHealth

/-- The `status` union type of `ProcessingData` in both lambda sources. -/
inductive Status where
  | pending
  | weather_processing
  | llm_processing
  | completed
  | failed
deriving DecidableEq, Repr

/-- `WeatherData` (weather-processor.ts lines 35-44).  JS numbers are
modelled as `Int`; the ISO strings `sunrise`/`sunset` are kept as strings. -/
structure WeatherData where
  temperature : Int
  humidity : Int
  description : String
  windSpeed : Int
  pressure : Int
  visibility : Int
  sunrise : String
  sunset : String
deriving DecidableEq, Repr

/-- `ProcessingData` (city-processor.ts lines 20-34; identical interfaces in
the other two lambdas).  `cityName` is optional here because items created by
`updateProcessingStatus`'s upsert carry no `cityName` attribute. -/
structure ProcessingData where
  cityId : String
  cityName : Option String
  countryCode : Option String
  status : Status
  timestamp : String
  weatherData : Option WeatherData
  llmDescription : Option String
  error : Option String
deriving DecidableEq, Repr

/-- A DynamoDB item key: (partition key `cityId`, sort key `timestamp`). -/
abbrev StoreKey := String × String

/-- The DynamoDB table `city-weather-data`, as an association list from
composite key to item.  Keys are kept unique by construction. -/
abbrev Store := List (StoreKey × ProcessingData)

/-- `PutItemCommand` with `Item: marshall(data)`: the item is stored under
the composite key taken from the item's own `cityId` and `timestamp`
attributes, replacing any previous item with that key. -/
def putStore (st : Store) (it : ProcessingData) : Store :=
  ((it.cityId, it.timestamp), it) :: st.filter (fun e => decide (e.1 ≠ (it.cityId, it.timestamp)))

/-- `GetItemCommand` at a composite key. -/
def lookupStore (st : Store) (k : StoreKey) : Option ProcessingData :=
  (st.find? (fun e => decide (e.1 = k))).map (fun e => e.2)

/-- A JS thrown value: either an `Error` (with its `message`) or a non-Error
value; the catch blocks test `error instanceof Error`. -/
inductive ErrVal where
  | jsError (msg : String)
  | nonError
deriving DecidableEq, Repr

/-- `error instanceof Error ? error.message : "Unknown error"`. -/
def ErrVal.caughtMsg : ErrVal → String
  | ErrVal.jsError m => m
  | ErrVal.nonError => "Unknown error"

/-- The `UpdateItemCommand` issued by `updateProcessingStatus`: key
`(cityId, "latest")`, with an `UpdateExpression` of the form
`SET #status = :status[, #error = :error], #timestamp = :timestamp` where
`#timestamp` maps to the attribute `timestamp`.  `timestamp` is the declared
SORT KEY of the `city-weather-data` table (CDK stack: `sortKey: { name:
"timestamp" }`), and DynamoDB rejects any update expression that modifies a
primary-key attribute, so this call always fails with a ValidationException
("Cannot update attribute timestamp. This attribute is part of the key")
and never writes anything. -/
def updateItemSetTimestamp (st : Store) (cid : String) (stat : Status)
    (err : Option String) (now : String) : Except ErrVal Store :=
  Except.error (ErrVal.jsError
    "One or more parameter values were invalid: Cannot update attribute timestamp. This attribute is part of the key")

/-- `updateProcessingStatus` (weather-processor.ts lines 224-264; the LLM
processor contains the same function): issues the `UpdateItemCommand` above
and swallows its failure in its own try/catch (`console.error` only).  Since
the update expression always SETs the sort-key attribute, the call is always
rejected by the store, so the function never modifies the table and never
throws to its caller. -/
def updateProcessingStatus (st : Store) (cid : String) (stat : Status)
    (err : Option String) (now : String) : Store :=
  match updateItemSetTimestamp st cid stat err now with
  | Except.ok st' => st'
  | Except.error _ => st

/-- Side effects performed by a handler invocation, in program order.
Failed attempts are recorded with their `...Fail` variant. -/
inductive Ev where
  | put (it : ProcessingData)
  | putFail
  | updFail (cid : String) (stat : Status) (err : Option String)
  | sendA (it : ProcessingData)
  | sendAFail
  | sendB (it : ProcessingData)
  | sendBFail
  | pub (subject : String)
  | pubFail
  | del
  | delFail
deriving DecidableEq, Repr

/-- `JSON.parse(body)` outcome for the POST /cities body.  `malformed`
covers a body that is not valid JSON (the parse throws), and the JSON value
`null` (whose property access throws); `parsed` covers a JSON value on which
property access yields an optional `cityName`/`countryCode`. -/
inductive BodyParse where
  | malformed
  | parsed (cityName : Option String) (countryCode : Option String)
deriving DecidableEq, Repr

/-- Environment of one `processCityRequest` invocation: the timestamp taken
at handler entry, `Date.now()` in milliseconds, and whether each awaited AWS
call throws. -/
structure IntakeEnv where
  now : String
  nowMs : Nat
  putFails : Bool
  sendFails : Bool
  publishFails : Bool
deriving DecidableEq, Repr

/-- HTTP responses built by `createResponse`: the status code plus the body
fields the handlers actually emit (absent fields stay `none`). -/
structure HttpRes where
  statusCode : Nat
  message : Option String := none
  cityId : Option String := none
  cityName : Option String := none
  status : Option Status := none
  timestamp : Option String := none
  statusUrl : Option String := none
  weatherData : Option WeatherData := none
  llmDescription : Option String := none
  error : Option String := none
deriving DecidableEq, Repr

/-- Result of one intake invocation: HTTP response, resulting table state,
messages sent to the city-processing queue, and the effect trace. -/
structure IOut where
  res : HttpRes
  store : Store
  sentA : List ProcessingData
  trace : List Ev
deriving Repr

/-- `cityName.toLowerCase().replace(/\s+/g, "-")` — lower-case the string and
collapse every maximal whitespace run into a single hyphen. -/
def slugify (s : String) : String :=
  (s.data.foldl
    (fun (acc : String × Bool) c =>
      if c.isWhitespace then (if acc.2 then acc else (acc.1.push '-', true))
      else (acc.1.push c.toLower, false))
    ("", false)).1

/-- The initial `ProcessingData` the intake builds (city-processor.ts lines
107-119): the cityId is the lower-cased, hyphenated city name followed by
`Date.now()`. -/
def intakeRecord (env : IntakeEnv) (name : String) (cc : Option String) : ProcessingData :=
  { cityId := slugify name ++ "-" ++ toString env.nowMs
    cityName := some name
    countryCode := cc
    status := Status.pending
    timestamp := env.now
    weatherData := none
    llmDescription := none
    error := none }

/-- `processCityRequest` (city-processor.ts lines 84-177).  A missing body or
a falsy `cityName` yields 400 before any side effect; a parse error or any
throwing AWS call lands in the catch block, which returns 500.  The SNS
publish is awaited inside the same try block, so its failure also reaches
the catch. -/
def processCityRequest (env : IntakeEnv) (body : Option BodyParse) (store : Store) : IOut :=
  match body with
  | none =>
      ⟨{ statusCode := 400, message := some "Request body is required" }, store, [], []⟩
  | some BodyParse.malformed =>
      ⟨{ statusCode := 500, message := some "Failed to process city request" }, store, [], []⟩
  | some (BodyParse.parsed cn cc) =>
      match cn with
      | none =>
          ⟨{ statusCode := 400, message := some "cityName is required" }, store, [], []⟩
      | some name =>
          if name = "" then
            ⟨{ statusCode := 400, message := some "cityName is required" }, store, [], []⟩
          else
            let cityId := slugify name ++ "-" ++ toString env.nowMs
            let pd : ProcessingData := intakeRecord env name cc
            if env.putFails then
              ⟨{ statusCode := 500, message := some "Failed to process city request" }, store, [], [Ev.putFail]⟩
            else
              let store1 := putStore store pd
              if env.sendFails then
                ⟨{ statusCode := 500, message := some "Failed to process city request" }, store1, [],
                  [Ev.put pd, Ev.sendAFail]⟩
              else if env.publishFails then
                ⟨{ statusCode := 500, message := some "Failed to process city request" }, store1, [pd],
                  [Ev.put pd, Ev.sendA pd, Ev.pubFail]⟩
              else
                ⟨{ statusCode := 202
                   message := some "City processing started"
                   cityId := some cityId
                   cityName := some name
                   status := some Status.pending
                   timestamp := some env.now
                   statusUrl := some ("/status/" ++ cityId) },
                  store1, [pd],
                  [Ev.put pd, Ev.sendA pd, Ev.pub "City Processing Started"]⟩

/-- `getProcessingStatus` (city-processor.ts lines 179-221): a `GetItem` at
the key `(cityId, "latest")`; a throwing lookup yields 500, an absent item
404, a present item 200 with the item's fields. -/
def getProcessingStatus (getFails : Bool) (store : Store) (cityId : String) : HttpRes :=
  if getFails then
    { statusCode := 500, message := some "Failed to get processing status" }
  else
    match lookupStore store (cityId, "latest") with
    | none =>
        { statusCode := 404
          message := some ("No processing data found for city ID: " ++ cityId) }
    | some it =>
        { statusCode := 200
          cityId := some it.cityId
          cityName := it.cityName
          status := some it.status
          timestamp := some it.timestamp
          weatherData := it.weatherData
          llmDescription := it.llmDescription
          error := it.error }

/-- The parsed OpenWeather response (weather-processor.ts lines 46-63),
with the nested `main`/`wind`/`sys` objects flattened and
`weather[0].description` taken directly (a non-empty `weather` array is
assumed, as the code does). -/
structure OWResp where
  temp : Int
  humidity : Int
  pressure : Int
  weatherDesc : String
  windSpeed : Int
  visibility : Int
  sunrise : Int
  sunset : Int
deriving DecidableEq, Repr

/-- Outcome of the outbound `fetch` to the OpenWeather API: the network call
throws, or the response is not ok (status/statusText), or it parses to an
`OWResp`. -/
inductive HttpOutcome where
  | threw (e : ErrVal)
  | notOk (status : String) (statusText : String)
  | okJson (r : OWResp)
deriving Repr

/-- Environment of one `processWeatherRecord` invocation.  The code calls
`new Date().toISOString()` at several points during the invocation; those
closely spaced timestamps are modelled by the single per-invocation value
`now` (never the sentinel string `"latest"` in reality).  `epochToIso`
models `new Date(n).toISOString()` on epoch milliseconds. -/
structure WeatherEnv where
  now : String
  apiKey : Option String
  http : HttpOutcome
  epochToIso : Int → String
  putFails : Bool
  putErr : ErrVal
  sendFails : Bool
  sendErr : ErrVal
  notifyFails : Bool
  notifyErr : ErrVal
  failNotifyFails : Bool
  deleteFails : Bool

/-- `fetchWeatherData` (weather-processor.ts lines 186-222): throws when the
OPENWEATHER_API_KEY is absent, throws `Weather API error: ...` on a non-ok
response, otherwise maps the response to a `WeatherData`. -/
def fetchWeatherData (env : WeatherEnv) : Except ErrVal WeatherData :=
  match env.apiKey with
  | none => Except.error (ErrVal.jsError "OpenWeather API key not configured")
  | some _ =>
      match env.http with
      | HttpOutcome.threw e => Except.error e
      | HttpOutcome.notOk st stx =>
          Except.error (ErrVal.jsError ("Weather API error: " ++ st ++ " " ++ stx))
      | HttpOutcome.okJson r =>
          Except.ok
            { temperature := r.temp
              humidity := r.humidity
              description := r.weatherDesc
              windSpeed := r.windSpeed
              pressure := r.pressure
              visibility := r.visibility
              sunrise := env.epochToIso (r.sunrise * 1000)
              sunset := env.epochToIso (r.sunset * 1000) }

/-- Result of one queue-consumer invocation (weather or LLM processor):
resulting table state, messages sent to the next queue, whether the SQS
message was deleted, whether an exception escaped to the per-record catch of
the top-level `handler` (which skips deletion), and the effect trace. -/
structure WOut where
  store : Store
  sentB : List ProcessingData
  deleted : Bool
  threw : Bool
  trace : List Ev
deriving Repr

/-- The catch block of `processWeatherRecord` (lines 151-183): attempt the
update to `failed` with the caught message (the update is always rejected by
the store — see `updateProcessingStatus` — and the rejection swallowed),
publish a failure notification, then delete the queue message.  A throwing
publish or delete propagates, leaving the message undeleted. -/
def weatherFailPath (env : WeatherEnv) (pd : ProcessingData) (e : ErrVal)
    (store : Store) (sent : List ProcessingData) (tr : List Ev) : WOut :=
  let msg := e.caughtMsg
  let store2 := updateProcessingStatus store pd.cityId Status.failed (some msg) env.now
  let tr2 := tr ++ [Ev.updFail pd.cityId Status.failed (some msg)]
  if env.failNotifyFails then
    ⟨store2, sent, false, true, tr2 ++ [Ev.pubFail]⟩
  else if env.deleteFails then
    ⟨store2, sent, false, true, tr2 ++ [Ev.pub "Weather Processing Failed", Ev.delFail]⟩
  else
    ⟨store2, sent, true, false, tr2 ++ [Ev.pub "Weather Processing Failed", Ev.del]⟩

/-- `processWeatherRecord` (weather-processor.ts lines 78-184).
`JSON.parse(record.body)` runs before the try block: a decode failure
escapes immediately (no deletion).  Inside the try: best-effort update to
`weather_processing`, fetch weather data, `PutItem` the enriched record
(status left at `weather_processing`), send it to the LLM queue, publish a
success notification, delete the queue message; any throw lands in the
catch block (`weatherFailPath`). -/
def processWeatherRecord (env : WeatherEnv) (body : Except Unit ProcessingData) (store : Store) : WOut :=
  match body with
  | Except.error _ => ⟨store, [], false, true, []⟩
  | Except.ok pd =>
      let store1 := updateProcessingStatus store pd.cityId Status.weather_processing none env.now
      let tr1 := [Ev.updFail pd.cityId Status.weather_processing none]
      match fetchWeatherData env with
      | Except.error e => weatherFailPath env pd e store1 [] tr1
      | Except.ok w =>
          let updated : ProcessingData :=
            { pd with
              status := Status.weather_processing
              weatherData := some w
              timestamp := env.now }
          if env.putFails then
            weatherFailPath env pd env.putErr store1 [] (tr1 ++ [Ev.putFail])
          else
            let store2 := putStore store1 updated
            let tr2 := tr1 ++ [Ev.put updated]
            if env.sendFails then
              weatherFailPath env pd env.sendErr store2 [] (tr2 ++ [Ev.sendBFail])
            else if env.notifyFails then
              weatherFailPath env pd env.notifyErr store2 [updated] (tr2 ++ [Ev.sendB updated, Ev.pubFail])
            else if env.deleteFails then
              ⟨store2, [updated], false, true,
                tr2 ++ [Ev.sendB updated, Ev.pub "Weather Data Retrieved", Ev.delFail]⟩
            else
              ⟨store2, [updated], true, false,
                tr2 ++ [Ev.sendB updated, Ev.pub "Weather Data Retrieved", Ev.del]⟩

/-- Environment of one `processLLMRecord` invocation (same conventions as
`WeatherEnv`). -/
structure LlmEnv where
  now : String
  apiKey : Option String
  putFails : Bool
  putErr : ErrVal
  notifyFails : Bool
  notifyErr : ErrVal
  failNotifyFails : Bool
  deleteFails : Bool
deriving Repr

/-- JS template interpolation of a possibly-undefined string. -/
def jsTemplate : Option String → String
  | some s => s
  | none => "undefined"

/-- `generateWeatherDescription` (llm processor lines 146-220).  The function
returns the hard-coded fake description on its first line; everything after
that `return` — the OPENAI_API_KEY check, the weather-data presence check,
and the OpenAI chat-completions call (lines 151-220) — is unreachable dead
code and is therefore not part of the embedded behaviour.  In particular the
result never depends on `env.apiKey`. -/
def generateWeatherDescription (env : LlmEnv) (pd : ProcessingData) : Except ErrVal String :=
  Except.ok ("Fake description for " ++ jsTemplate pd.cityName ++ "\n")

/-- The catch block of `processLLMRecord` (lines 111-143): attempt the
update to `failed` (always rejected and swallowed, as in the weather
processor), publish a failure notification, delete the queue message. -/
def llmFailPath (env : LlmEnv) (pd : ProcessingData) (e : ErrVal)
    (store : Store) (tr : List Ev) : WOut :=
  let msg := e.caughtMsg
  let store2 := updateProcessingStatus store pd.cityId Status.failed (some msg) env.now
  let tr2 := tr ++ [Ev.updFail pd.cityId Status.failed (some msg)]
  if env.failNotifyFails then
    ⟨store2, [], false, true, tr2 ++ [Ev.pubFail]⟩
  else if env.deleteFails then
    ⟨store2, [], false, true, tr2 ++ [Ev.pub "LLM Processing Failed", Ev.delFail]⟩
  else
    ⟨store2, [], true, false, tr2 ++ [Ev.pub "LLM Processing Failed", Ev.del]⟩

/-- `processLLMRecord` (llm processor lines 58-144), mirroring
`processWeatherRecord`: decode before the try block; best-effort update to
`llm_processing`; generate the description; `PutItem` the completed record;
publish a completion notification; delete the queue message. -/
def processLLMRecord (env : LlmEnv) (body : Except Unit ProcessingData) (store : Store) : WOut :=
  match body with
  | Except.error _ => ⟨store, [], false, true, []⟩
  | Except.ok pd =>
      let store1 := updateProcessingStatus store pd.cityId Status.llm_processing none env.now
      let tr1 := [Ev.updFail pd.cityId Status.llm_processing none]
      match generateWeatherDescription env pd with
      | Except.error e => llmFailPath env pd e store1 tr1
      | Except.ok desc =>
          let completedData : ProcessingData :=
            { pd with
              status := Status.completed
              llmDescription := some desc
              timestamp := env.now }
          if env.putFails then
            llmFailPath env pd env.putErr store1 (tr1 ++ [Ev.putFail])
          else
            let store2 := putStore store1 completedData
            let tr2 := tr1 ++ [Ev.put completedData]
            if env.notifyFails then
              llmFailPath env pd env.notifyErr store2 (tr2 ++ [Ev.pubFail])
            else if env.deleteFails then
              ⟨store2, [], false, true,
                tr2 ++ [Ev.pub "Weather Processing Completed", Ev.delFail]⟩
            else
              ⟨store2, [], true, false,
                tr2 ++ [Ev.pub "Weather Processing Completed", Ev.del]⟩

/-- Global pipeline state: the table plus the two queues (city-processing
queue feeding the weather processor, and the LLM queue).  Queue contents are
the decoded `ProcessingData` payloads; at-least-once delivery means a
processed message is removed only when the handler deleted it. -/
structure SysState where
  store : Store
  qa : List ProcessingData
  qb : List ProcessingData

/-- One intake invocation against the system. -/
def intakeStep (s : SysState) (env : IntakeEnv) (body : Option BodyParse) : SysState :=
  let o := processCityRequest env body s.store
  ⟨o.store, s.qa ++ o.sentA, s.qb⟩

/-- One weather-processor invocation consuming a message of queue A. -/
def weatherStep (s : SysState) (env : WeatherEnv) (m : ProcessingData) : SysState :=
  let o := processWeatherRecord env (Except.ok m) s.store
  ⟨o.store, if o.deleted then s.qa.erase m else s.qa, s.qb ++ o.sentB⟩

/-- One LLM-processor invocation consuming a message of queue B. -/
def llmStep (s : SysState) (env : LlmEnv) (m : ProcessingData) : SysState :=
  let o := processLLMRecord env (Except.ok m) s.store
  ⟨o.store, s.qa, if o.deleted then s.qb.erase m else s.qb⟩

/-- States reachable from the empty deployment by handler invocations under
arbitrary environments.  `new Date().toISOString()` never produces the
sentinel string `"latest"`, hence the side conditions on the consumer
steps. -/
inductive Reachable : SysState → Prop where
  | init : Reachable ⟨[], [], []⟩
  | intake (s : SysState) (env : IntakeEnv) (body : Option BodyParse) :
      Reachable s → Reachable (intakeStep s env body)
  | weather (s : SysState) (env : WeatherEnv) (m : ProcessingData) :
      Reachable s → m ∈ s.qa → env.now ≠ "latest" → Reachable (weatherStep s env m)
  | llm (s : SysState) (env : LlmEnv) (m : ProcessingData) :
      Reachable s → m ∈ s.qb → env.now ≠ "latest" → Reachable (llmStep s env m)

/-- Store invariant: an item carrying `weatherData` has status
`weather_processing` or `completed`, and items under the `"latest"` sort key
(the ones written by `updateProcessingStatus`) never carry `weatherData`. -/
def wdInv (st : Store) : Prop :=
  ∀ e ∈ st,
    ((e.2.weatherData ≠ none →
        e.2.status = Status.weather_processing ∨ e.2.status = Status.completed) ∧
      (e.1.2 = "latest" → e.2.weatherData = none))

/-! ### Concrete fixtures used by witnesses and counterexamples -/

/-- A healthy intake environment. -/
def iEnv0 : IntakeEnv :=
  { now := "2024-01-01T00:00:00.000Z"
    nowMs := 1700000000000
    putFails := false
    sendFails := false
    publishFails := false }

/-- Intake environment whose SNS publish throws. -/
def iEnvPubFail : IntakeEnv :=
  { iEnv0 with publishFails := true }

/-- The pending record the intake writes for `{"cityName":"Paris"}` under
`iEnv0`. -/
def pdParis : ProcessingData :=
  { cityId := "paris-1700000000000"
    cityName := some "Paris"
    countryCode := none
    status := Status.pending
    timestamp := "2024-01-01T00:00:00.000Z"
    weatherData := none
    llmDescription := none
    error := none }

/-- A concrete OpenWeather response payload. -/
def owr0 : OWResp :=
  { temp := 15
    humidity := 80
    pressure := 1012
    weatherDesc := "light rain"
    windSpeed := 5
    visibility := 10000
    sunrise := 0
    sunset := 0 }

/-- A healthy weather-processor environment whose provider call succeeds. -/
def wEnv0 : WeatherEnv :=
  { now := "2024-01-01T00:00:05.000Z"
    apiKey := some "k"
    http := HttpOutcome.okJson owr0
    epochToIso := fun _ => "1970-01-01T00:00:00.000Z"
    putFails := false
    putErr := ErrVal.jsError "put failed"
    sendFails := false
    sendErr := ErrVal.jsError "send failed"
    notifyFails := false
    notifyErr := ErrVal.jsError "notify failed"
    failNotifyFails := false
    deleteFails := false }

/-- Weather environment whose provider call fails with a non-ok response and
whose failure-path SNS publish also throws. -/
def wEnvFailNotify : WeatherEnv :=
  { wEnv0 with
    http := HttpOutcome.notOk "500" "Internal Server Error"
    failNotifyFails := true }

/-- Weather environment whose OPENWEATHER_API_KEY is absent, the rest
healthy. -/
def wEnvNoKey : WeatherEnv :=
  { wEnv0 with apiKey := none }

/-- The `WeatherData` produced from `owr0` under `wEnv0`. -/
def wd0 : WeatherData :=
  { temperature := 15
    humidity := 80
    description := "light rain"
    windSpeed := 5
    pressure := 1012
    visibility := 10000
    sunrise := "1970-01-01T00:00:00.000Z"
    sunset := "1970-01-01T00:00:00.000Z" }

/-- The enriched record the weather processor persists and forwards when it
consumes `pdParis` under `wEnv0`. -/
def enriched0 : ProcessingData :=
  { pdParis with
    status := Status.weather_processing
    weatherData := some wd0
    timestamp := "2024-01-01T00:00:05.000Z" }

/-- LLM-processor environment with the OPENAI_API_KEY absent, the rest
healthy. -/
def lEnvNoKey : LlmEnv :=
  { now := "2024-01-01T00:00:10.000Z"
    apiKey := none
    putFails := false
    putErr := ErrVal.jsError "put failed"
    notifyFails := false
    notifyErr := ErrVal.jsError "notify failed"
    failNotifyFails := false
    deleteFails := false }

/-- The system state after one successful intake of `{"cityName":"Paris"}`. -/
def stParis1 : SysState :=
  intakeStep ⟨[], [], []⟩ iEnv0 (some (BodyParse.parsed (some "Paris") none))

/-- The system state after the weather processor then consumes the Paris
message successfully. -/
def stParis2 : SysState :=
  weatherStep stParis1 wEnv0 pdParis

/-! ### Store lemmas -/

theorem mem_putStore {st : Store} {it : ProcessingData} {e : StoreKey × ProcessingData}
    (h : e ∈ putStore st it) : e = ((it.cityId, it.timestamp), it) ∨ e ∈ st := by
  unfold putStore at h
  rcases List.mem_cons.1 h with h | h
  · exact Or.inl h
  · exact Or.inr (List.mem_filter.1 h).1

theorem lookupStore_mem {st : Store} {k : StoreKey} {it : ProcessingData}
    (h : lookupStore st k = some it) : (k, it) ∈ st := by
  unfold lookupStore at h
  cases hf : st.find? (fun e => decide (e.1 = k)) with
  | none => rw [hf] at h; cases h
  | some e =>
      rw [hf] at h
      have hm := List.mem_of_find?_eq_some hf
      have hp := List.find?_some hf
      simp only [Option.map_some'] at h
      simp only [decide_eq_true_eq] at hp
      obtain ⟨k', it'⟩ := e
      cases h
      cases hp
      exact hm

theorem lookupStore_cons_self (k : StoreKey) (it : ProcessingData) (rest : Store) :
    lookupStore ((k, it) :: rest) k = some it := by
  simp [lookupStore, List.find?]

/-! ### Invariant preservation -/

theorem wdInv_nil : wdInv [] := by
  intro e he
  cases he

theorem wdInv_putStore {st : Store} {it : ProcessingData} (h : wdInv st)
    (h1 : it.weatherData ≠ none →
      it.status = Status.weather_processing ∨ it.status = Status.completed)
    (h2 : it.timestamp = "latest" → it.weatherData = none) :
    wdInv (putStore st it) := by
  intro e he
  rcases mem_putStore he with rfl | he'
  · exact ⟨h1, h2⟩
  · exact h e he'

theorem updateProcessingStatus_eq (st : Store) (cid : String) (stat : Status)
    (err : Option String) (now : String) :
    updateProcessingStatus st cid stat err now = st := rfl

theorem wdInv_processCityRequest {store : Store} (h : wdInv store)
    (env : IntakeEnv) (body : Option BodyParse) :
    wdInv (processCityRequest env body store).store := by
  match body with
  | none => simpa [processCityRequest]
  | some BodyParse.malformed => simpa [processCityRequest]
  | some (BodyParse.parsed none cc) => simpa [processCityRequest]
  | some (BodyParse.parsed (some name) cc) =>
      by_cases hn : name = ""
      · simpa [processCityRequest, hn]
      · by_cases hp : env.putFails
        · simpa [processCityRequest, hn, hp]
        · have hput : wdInv (putStore store (intakeRecord env name cc)) :=
            wdInv_putStore h (fun hx => absurd rfl hx) (fun _ => rfl)
          by_cases hs : env.sendFails
          · simpa [processCityRequest, hn, hp, hs]
          · by_cases hb : env.publishFails <;>
              simpa [processCityRequest, hn, hp, hs, hb]

theorem weatherFailPath_store (env : WeatherEnv) (pd : ProcessingData) (e : ErrVal)
    (store : Store) (sent : List ProcessingData) (tr : List Ev) :
    (weatherFailPath env pd e store sent tr).store = store := by
  unfold weatherFailPath
  by_cases h3 : env.failNotifyFails <;> by_cases h4 : env.deleteFails <;>
    simp [h3, h4, updateProcessingStatus_eq]

theorem wdInv_weatherFailPath {store : Store} (h : wdInv store)
    (env : WeatherEnv) (pd : ProcessingData) (e : ErrVal)
    (sent : List ProcessingData) (tr : List Ev) :
    wdInv (weatherFailPath env pd e store sent tr).store := by
  rw [weatherFailPath_store]
  exact h

theorem wdInv_processWeatherRecord {store : Store} (h : wdInv store)
    (env : WeatherEnv) (body : Except Unit ProcessingData)
    (hnow : env.now ≠ "latest") :
    wdInv (processWeatherRecord env body store).store := by
  match body with
  | Except.error e => simpa [processWeatherRecord]
  | Except.ok pd =>
      have h1 : wdInv (updateProcessingStatus store pd.cityId Status.weather_processing none env.now) := h
      simp only [processWeatherRecord]
      cases hf : fetchWeatherData env with
      | error e =>
          simpa using wdInv_weatherFailPath h1 env pd e _ _
      | ok w =>
          have hupd : wdInv (putStore
              (updateProcessingStatus store pd.cityId Status.weather_processing none env.now)
              { pd with
                status := Status.weather_processing
                weatherData := some w
                timestamp := env.now }) :=
            wdInv_putStore h1 (fun _ => Or.inl rfl) (fun hx => absurd hx hnow)
          by_cases hp : env.putFails
          · simpa [hp] using wdInv_weatherFailPath h1 env pd env.putErr _ _
          · by_cases hs : env.sendFails
            · simpa [hp, hs] using wdInv_weatherFailPath hupd env pd env.sendErr _ _
            · by_cases hb : env.notifyFails
              · simpa [hp, hs, hb] using wdInv_weatherFailPath hupd env pd env.notifyErr _ _
              · by_cases hd : env.deleteFails <;> simpa [hp, hs, hb, hd] using hupd

theorem llmFailPath_store (env : LlmEnv) (pd : ProcessingData) (e : ErrVal)
    (store : Store) (tr : List Ev) :
    (llmFailPath env pd e store tr).store = store := by
  unfold llmFailPath
  by_cases h3 : env.failNotifyFails <;> by_cases h4 : env.deleteFails <;>
    simp [h3, h4, updateProcessingStatus_eq]

theorem wdInv_llmFailPath {store : Store} (h : wdInv store)
    (env : LlmEnv) (pd : ProcessingData) (e : ErrVal) (tr : List Ev) :
    wdInv (llmFailPath env pd e store tr).store := by
  rw [llmFailPath_store]
  exact h

theorem wdInv_processLLMRecord {store : Store} (h : wdInv store)
    (env : LlmEnv) (body : Except Unit ProcessingData)
    (hnow : env.now ≠ "latest") :
    wdInv (processLLMRecord env body store).store := by
  match body with
  | Except.error e => simpa [processLLMRecord]
  | Except.ok pd =>
      have h1 : wdInv (updateProcessingStatus store pd.cityId Status.llm_processing none env.now) := h
      have hupd : wdInv (putStore
          (updateProcessingStatus store pd.cityId Status.llm_processing none env.now)
          { pd with
            status := Status.completed
            llmDescription := some ("Fake description for " ++ jsTemplate pd.cityName ++ "\n")
            timestamp := env.now }) :=
        wdInv_putStore h1 (fun _ => Or.inr rfl) (fun hx => absurd hx hnow)
      simp only [processLLMRecord, generateWeatherDescription]
      by_cases hp : env.putFails
      · simpa [hp] using wdInv_llmFailPath h1 env pd env.putErr _
      · by_cases hb : env.notifyFails
        · simpa [hp, hb] using wdInv_llmFailPath hupd env pd env.notifyErr _
        · by_cases hd : env.deleteFails <;> simpa [hp, hb, hd] using hupd

/-- Every reachable store state satisfies the weather-data invariant. -/
theorem reachable_wdInv {s : SysState} (h : Reachable s) : wdInv s.store := by
  induction h with
  | init => exact wdInv_nil
  | intake s env body _ ih => exact wdInv_processCityRequest ih env body
  | weather s env m _ _ hnow ih => exact wdInv_processWeatherRecord ih env (Except.ok m) hnow
  | llm s env m _ _ hnow ih => exact wdInv_processLLMRecord ih env (Except.ok m) hnow

theorem weatherFailPath_deleted (env : WeatherEnv) (pd : ProcessingData) (e : ErrVal)
    (store : Store) (sent : List ProcessingData) (tr : List Ev)
    (hfn : env.failNotifyFails = false) (hdel : env.deleteFails = false) :
    (weatherFailPath env pd e store sent tr).deleted = true := by
  simp [weatherFailPath, hfn, hdel]

theorem llmFailPath_deleted (env : LlmEnv) (pd : ProcessingData) (e : ErrVal)
    (store : Store) (tr : List Ev)
    (hfn : env.failNotifyFails = false) (hdel : env.deleteFails = false) :
    (llmFailPath env pd e store tr).deleted = true := by
  simp [llmFailPath, hfn, hdel]

theorem processWeatherRecord_ok_deleted (env : WeatherEnv) (pd : ProcessingData)
    (store : Store) (hfn : env.failNotifyFails = false) (hdel : env.deleteFails = false) :
    (processWeatherRecord env (Except.ok pd) store).deleted = true := by
  simp only [processWeatherRecord]
  cases hf : fetchWeatherData env with
  | error e => exact weatherFailPath_deleted env pd e _ _ _ hfn hdel
  | ok w =>
      cases hp : env.putFails with
      | true => exact weatherFailPath_deleted env pd env.putErr _ _ _ hfn hdel
      | false =>
          cases hs : env.sendFails with
          | true => exact weatherFailPath_deleted env pd env.sendErr _ _ _ hfn hdel
          | false =>
              cases hb : env.notifyFails with
              | true => exact weatherFailPath_deleted env pd env.notifyErr _ _ _ hfn hdel
              | false => simp [hdel]

theorem processLLMRecord_ok_deleted (env : LlmEnv) (pd : ProcessingData)
    (store : Store) (hfn : env.failNotifyFails = false) (hdel : env.deleteFails = false) :
    (processLLMRecord env (Except.ok pd) store).deleted = true := by
  simp only [processLLMRecord, generateWeatherDescription]
  cases hp : env.putFails with
  | true => exact llmFailPath_deleted env pd env.putErr _ _ hfn hdel
  | false =>
      cases hb : env.notifyFails with
      | true => exact llmFailPath_deleted env pd env.notifyErr _ _ hfn hdel
      | false => simp [hdel]

/-! ### Claim theorems -/

/-- C1: against the claim, the record written by intake is NOT the record
the status query reads.  A valid POST /cities (cityName "Paris") returns 202
with a jobId, yet a GET /status/{jobId} issued right after the intake store
write (before any further stage activity) returns 404, not 200 with
status=pending: intake persists under sort key `timestamp = <ISO time>`
while the status query reads sort key `"latest"`. -/
theorem c1_intake_write_invisible_to_status_query :
    (processCityRequest iEnv0 (some (BodyParse.parsed (some "Paris") none)) []).res.statusCode = 202 ∧
    (processCityRequest iEnv0 (some (BodyParse.parsed (some "Paris") none)) []).res.cityId =
      some "paris-1700000000000" ∧
    (getProcessingStatus false
        (processCityRequest iEnv0 (some (BodyParse.parsed (some "Paris") none)) []).store
        "paris-1700000000000").statusCode = 404 := by
  decide

/-- C2 (counterexample): a reachable record-store state contains a persisted
record whose status is the enriching in-progress marker
(`weather_processing`) and which carries `weatherData` — the enrichment
success path persists the enriched record with its status left at
`weather_processing`. -/
theorem c2_enriching_record_carries_enrichment :
    Reachable stParis2 ∧
    ((("paris-1700000000000", "2024-01-01T00:00:05.000Z"), enriched0) ∈ stParis2.store) ∧
    enriched0.status = Status.weather_processing ∧
    enriched0.weatherData ≠ none := by
  have h1 : Reachable stParis1 :=
    Reachable.intake ⟨[], [], []⟩ iEnv0 (some (BodyParse.parsed (some "Paris") none)) Reachable.init
  have h2 : Reachable stParis2 :=
    Reachable.weather stParis1 wEnv0 pdParis h1 (by decide) (by decide)
  exact ⟨h2, by decide, rfl, by decide⟩

/-- C2 (amended): in every reachable record-store state, a record carrying
`weatherData` has status `weather_processing` (the enriching marker, the
status the enrichment success write intentionally leaves in place) or
`completed`; records with status `llm_processing` or `failed` never carry
`weatherData`. -/
theorem c2_weatherData_only_on_enriching_or_completed
    (s : SysState) (h : Reachable s) :
    ∀ e ∈ s.store, e.2.weatherData ≠ none →
      e.2.status = Status.weather_processing ∨ e.2.status = Status.completed :=
  fun e he hw => (reachable_wdInv h e he).1 hw

theorem c2_weatherData_only_on_enriching_or_completed_witness :
    enriched0.status = Status.weather_processing ∨ enriched0.status = Status.completed := by
  have h1 : Reachable stParis1 :=
    Reachable.intake ⟨[], [], []⟩ iEnv0 (some (BodyParse.parsed (some "Paris") none)) Reachable.init
  have h2 : Reachable stParis2 :=
    Reachable.weather stParis1 wEnv0 pdParis h1 (by decide) (by decide)
  exact c2_weatherData_only_on_enriching_or_completed stParis2 h2
    (("paris-1700000000000", "2024-01-01T00:00:05.000Z"), enriched0) (by decide) (by decide)

/-- C3: the description stage never calls the text-generation provider and
never checks the generation credential: `generateWeatherDescription` returns
the hard-coded fake description on its first line (the provider call and the
credential check are dead code), so even with the credential absent no
configuration failure is raised. -/
theorem c3_description_stage_fake_ignores_credential :
    lEnvNoKey.apiKey = none ∧
    generateWeatherDescription lEnvNoKey pdParis = Except.ok "Fake description for Paris\n" :=
  ⟨rfl, rfl⟩

/-- C4 (counterexample): when the store write and the Queue A enqueue both
succeed but the notification publish throws, the handler returns 500, not
the claimed 202 — the publish is awaited inside the same try/catch. -/
theorem c4_notification_failure_returns_500 :
    (processCityRequest iEnvPubFail (some (BodyParse.parsed (some "Paris") none)) []).res.statusCode = 500 ∧
    (processCityRequest iEnvPubFail (some (BodyParse.parsed (some "Paris") none)) []).res.statusCode ≠ 202 ∧
    Ev.put pdParis ∈ (processCityRequest iEnvPubFail (some (BodyParse.parsed (some "Paris") none)) []).trace ∧
    Ev.sendA pdParis ∈ (processCityRequest iEnvPubFail (some (BodyParse.parsed (some "Paris") none)) []).trace := by
  decide

/-- C4 (amended): for every valid POST /cities request in which the store
write and the Queue A enqueue succeed but the notification publish fails,
the handler returns 500 — a notification failure fails the request — even
though the record remains persisted and the Queue A message remains sent. -/
theorem c4_notification_failure_fails_request (env : IntakeEnv) (name : String)
    (cc : Option String) (store : Store) (hn : name ≠ "")
    (hput : env.putFails = false) (hsend : env.sendFails = false)
    (hpub : env.publishFails = true) :
    (processCityRequest env (some (BodyParse.parsed (some name) cc)) store).res.statusCode = 500 ∧
    (processCityRequest env (some (BodyParse.parsed (some name) cc)) store).sentA =
      [intakeRecord env name cc] ∧
    lookupStore (processCityRequest env (some (BodyParse.parsed (some name) cc)) store).store
        ((intakeRecord env name cc).cityId, env.now) = some (intakeRecord env name cc) := by
  have hrun : processCityRequest env (some (BodyParse.parsed (some name) cc)) store =
      ⟨{ statusCode := 500, message := some "Failed to process city request" },
        putStore store (intakeRecord env name cc), [intakeRecord env name cc],
        [Ev.put (intakeRecord env name cc), Ev.sendA (intakeRecord env name cc), Ev.pubFail]⟩ := by
    simp [processCityRequest, hn, hput, hsend, hpub]
  rw [hrun]
  exact ⟨rfl, rfl, lookupStore_cons_self _ _ _⟩

theorem c4_notification_failure_fails_request_witness :
    (processCityRequest iEnvPubFail (some (BodyParse.parsed (some "Berlin") none)) []).res.statusCode = 500 ∧
    (processCityRequest iEnvPubFail (some (BodyParse.parsed (some "Berlin") none)) []).sentA =
      [intakeRecord iEnvPubFail "Berlin" none] ∧
    lookupStore (processCityRequest iEnvPubFail (some (BodyParse.parsed (some "Berlin") none)) []).store
        ((intakeRecord iEnvPubFail "Berlin" none).cityId, iEnvPubFail.now) =
      some (intakeRecord iEnvPubFail "Berlin" none) :=
  c4_notification_failure_fails_request iEnvPubFail "Berlin" none [] (by decide) rfl rfl rfl

/-- C5: against the claim, an enrichment failure after a successful decode
never persists status=failed or a `lastError`: the failure-path
`updateProcessingStatus` issues an UpdateItem whose expression SETs the
table's sort-key attribute `timestamp`, which the store rejects
(ValidationException) and the function's own try/catch swallows.  Here the
weather credential is absent and every other collaborator is healthy, yet
the record store is left completely unchanged by the invocation — no item
appears at the `(cityId, "latest")` status key — while the failure
notification IS published and the Queue A message IS deleted, as the claim
also says. -/
theorem c5_failed_status_never_persisted :
    (processWeatherRecord wEnvNoKey (Except.ok pdParis) stParis1.store).store = stParis1.store ∧
    lookupStore (processWeatherRecord wEnvNoKey (Except.ok pdParis) stParis1.store).store
      (pdParis.cityId, "latest") = none ∧
    Ev.pub "Weather Processing Failed" ∈
      (processWeatherRecord wEnvNoKey (Except.ok pdParis) stParis1.store).trace ∧
    (processWeatherRecord wEnvNoKey (Except.ok pdParis) stParis1.store).deleted = true := by
  decide

/-- C6 (counterexample): a message whose body decodes successfully can still
end up undeleted — here the provider call fails after a successful decode
and the failure-path notification publish then throws, so the delete is
never reached; deletion is therefore not skipped exactly on decode
failures. -/
theorem c6_post_decode_failure_can_skip_deletion :
    (processWeatherRecord wEnvFailNotify (Except.ok pdParis) []).deleted = false ∧
    (processWeatherRecord wEnvFailNotify (Except.ok pdParis) []).threw = true := by
  decide

/-- C6 (amended): provided the failure-path notification publish and the
queue delete calls themselves succeed, an enrichment or description
invocation leaves its message undeleted exactly when JSON-decoding of the
message body throws; without that proviso a post-decode failure whose
follow-up publish or delete throws also leaves the message undeleted. -/
theorem c6_deletion_iff_decode_success_when_infra_up
    (envW : WeatherEnv) (bodyW : Except Unit ProcessingData) (stW : Store)
    (envL : LlmEnv) (bodyL : Except Unit ProcessingData) (stL : Store)
    (h1 : envW.failNotifyFails = false) (h2 : envW.deleteFails = false)
    (h3 : envL.failNotifyFails = false) (h4 : envL.deleteFails = false) :
    ((processWeatherRecord envW bodyW stW).deleted = false ↔ bodyW = Except.error ()) ∧
    ((processLLMRecord envL bodyL stL).deleted = false ↔ bodyL = Except.error ()) := by
  constructor
  · cases bodyW with
    | error u => cases u; simp [processWeatherRecord]
    | ok pd => simp [processWeatherRecord_ok_deleted envW pd stW h1 h2]
  · cases bodyL with
    | error u => cases u; simp [processLLMRecord]
    | ok pd => simp [processLLMRecord_ok_deleted envL pd stL h3 h4]

theorem c6_deletion_iff_decode_success_when_infra_up_witness :
    ((processWeatherRecord wEnv0 (Except.ok pdParis) []).deleted = false ↔
      (Except.ok pdParis : Except Unit ProcessingData) = Except.error ()) ∧
    ((processLLMRecord lEnvNoKey (Except.ok pdParis) []).deleted = false ↔
      (Except.ok pdParis : Except Unit ProcessingData) = Except.error ()) :=
  c6_deletion_iff_decode_success_when_infra_up wEnv0 (Except.ok pdParis) []
    lEnvNoKey (Except.ok pdParis) [] rfl rfl rfl rfl

/-- C7: in the concrete Paris run, both stage traces show persistence
strictly before the next-stage enqueue (the `put` event precedes the
`sendA`/`sendB` event), yet the consumer receives a job that is NOT visible
to status queries: the status query for the freshly persisted job returns
404, because intake persists under the ISO sort key while the query reads
the `"latest"` sentinel. -/
theorem c7_persist_precedes_enqueue_but_record_invisible :
    (processCityRequest iEnv0 (some (BodyParse.parsed (some "Paris") none)) []).trace =
      [Ev.put pdParis, Ev.sendA pdParis, Ev.pub "City Processing Started"] ∧
    (processWeatherRecord wEnv0 (Except.ok pdParis)
        (processCityRequest iEnv0 (some (BodyParse.parsed (some "Paris") none)) []).store).trace =
      [Ev.updFail "paris-1700000000000" Status.weather_processing none, Ev.put enriched0,
        Ev.sendB enriched0, Ev.pub "Weather Data Retrieved", Ev.del] ∧
    (getProcessingStatus false
        (processCityRequest iEnv0 (some (BodyParse.parsed (some "Paris") none)) []).store
        "paris-1700000000000").statusCode = 404 := by
  decide

/-- C8: a POST /cities whose body is missing or whose parsed `cityName` is
absent or empty returns 400 with no side effects: the store is unchanged,
nothing is enqueued, and no effect at all is attempted. -/
theorem c8_invalid_cityName_400_no_side_effects (env : IntakeEnv) (store : Store)
    (body : Option BodyParse)
    (h : body = none ∨
      ∃ cn cc, body = some (BodyParse.parsed cn cc) ∧ (cn = none ∨ cn = some "")) :
    (processCityRequest env body store).res.statusCode = 400 ∧
    (processCityRequest env body store).store = store ∧
    (processCityRequest env body store).sentA = [] ∧
    (processCityRequest env body store).trace = [] := by
  rcases h with rfl | ⟨cn, cc, rfl, rfl | rfl⟩ <;> simp [processCityRequest]

theorem c8_invalid_cityName_400_no_side_effects_witness :
    (processCityRequest iEnv0 none []).res.statusCode = 400 ∧
    (processCityRequest iEnv0 none []).store = [] ∧
    (processCityRequest iEnv0 none []).sentA = [] ∧
    (processCityRequest iEnv0 none []).trace = [] :=
  c8_invalid_cityName_400_no_side_effects iEnv0 [] none (Or.inl rfl)

/-- C9: the status query returns 404 exactly when the lookup succeeds and
finds no record at the job's status key (`(jobId, "latest")`), and returns a
5xx-class code (concretely 500) exactly when the store lookup itself fails —
absence and storage failure are never conflated. -/
theorem c9_status_404_iff_absent_500_iff_store_failure
    (getFails : Bool) (store : Store) (cid : String) :
    ((getProcessingStatus getFails store cid).statusCode = 404 ↔
      (getFails = false ∧ lookupStore store (cid, "latest") = none)) ∧
    ((500 ≤ (getProcessingStatus getFails store cid).statusCode ∧
        (getProcessingStatus getFails store cid).statusCode < 600) ↔ getFails = true) := by
  cases getFails <;> cases hl : lookupStore store (cid, "latest") <;>
    simp [getProcessingStatus, hl]

theorem c9_status_404_iff_absent_500_iff_store_failure_witness :
    500 ≤ (getProcessingStatus true [] "x").statusCode ∧
      (getProcessingStatus true [] "x").statusCode < 600 :=
  (c9_status_404_iff_absent_500_iff_store_failure true [] "x").2.mpr rfl

/-- C10: a POST /cities whose body is present but not valid JSON is caught
by the handler's try/catch and answered with 500 (not 400), with no store
write, no enqueue and no notification. -/
theorem c10_malformed_body_500_no_side_effects (env : IntakeEnv) (store : Store) :
    (processCityRequest env (some BodyParse.malformed) store).res.statusCode = 500 ∧
    (processCityRequest env (some BodyParse.malformed) store).store = store ∧
    (processCityRequest env (some BodyParse.malformed) store).sentA = [] ∧
    (processCityRequest env (some BodyParse.malformed) store).trace = [] := by
  simp [processCityRequest]

end LearnifyHealth
